import Mathlib

/-!
# Verification of the mock-your-api interception pipeline

Shallow embedding of the core interception-and-resolution pipeline of the
mock-your-api browser extension, and proofs of the specification claims
about it.  The embedded code comes from:

* `src/background/service-worker.js` — the Rule Authority's `checkMock`;
* `src/content/injected.js` — the in-page call-site shim: pending-request
  registry, fetch override, XHR override, and `simulateMockedXHR`;
* `src/content/interceptor.js` — the Decision Relay forwarding
  `CHECK_MOCK` queries and `MOCK_RESPONSE` replies.

JavaScript values that may be absent are modelled as `Option`; JS string
truthiness (`s || d` yielding `d` for the empty string) and numeric
truthiness (`n || d` yielding `d` for `0`) are made explicit by `jsOrString`
and `jsOrNat`.  `jsToUpper`/`jsToLower` model the ASCII case mapping
applied to HTTP method names and header names.
-/

namespace MockApi

/-- ASCII uppercase, modelling JS `toUpperCase()` as applied to HTTP
method names (structurally recursive over the characters, so it evaluates
by kernel reduction). -/
def jsToUpper (s : String) : String := String.mk (s.data.map Char.toUpper)

/-- ASCII lowercase, modelling JS `toLowerCase()` as applied to header
names. -/
def jsToLower (s : String) : String := String.mk (s.data.map Char.toLower)

/-- JS `v || d` on an optional string: `undefined`, `null` and the empty
string are falsy, so they all yield the default. -/
def jsOrString (v : Option String) (d : String) : String :=
  match v with
  | some s => if s = "" then d else s
  | none => d

/-- JS `v || d` on an optional number: `undefined`, `null` and `0` are
falsy, so they all yield the default. -/
def jsOrNat (v : Option Nat) (d : Nat) : Nat :=
  match v with
  | some n => if n = 0 then d else n
  | none => d

/-- The `request` part of a stored rule (`service-worker.js` `addRule`). -/
structure MockRequest where
  url : String
  method : String
deriving DecidableEq, Repr

/-- The `response` payload of a rule / of a `MatchDecision`.  Fields are
optional because stored rules are arbitrary JSON shapes; the shim applies
its own defaulting (`status || 200`, `statusText || 'OK'`, `body || ''`,
`headers || empty`).  Headers are an ordered key-value list, mirroring a JS
object's own enumerable string entries. -/
structure MockResponsePayload where
  status : Option Nat
  statusText : Option String
  headers : Option (List (String × String))
  body : Option String
deriving DecidableEq, Repr

/-- A stored mock rule (the fields the matcher reads). -/
structure Rule where
  id : String
  enabled : Bool
  request : MockRequest
  response : MockResponsePayload
deriving DecidableEq, Repr

/-- The reply of the Rule Authority's `checkMock` (and the payload of a
`MOCK_RESPONSE` message).  `error` is the extra field the content script
attaches when forwarding fails (`interceptor.js:46`). -/
structure MatchDecision where
  shouldMock : Bool
  response : Option MockResponsePayload
  ruleId : Option String
  error : Option String
deriving DecidableEq, Repr

/-- The `shouldMock:false` reply. -/
def noMockDecision : MatchDecision :=
  { shouldMock := false, response := none, ruleId := none, error := none }

/-- The per-rule match test inside `checkMock`
(`service-worker.js:224-234`): the rule must be enabled, its URL must equal
the request URL exactly, and its method must equal the request method after
uppercasing both sides. -/
def ruleMatches (rule : Rule) (url method : String) : Bool :=
  rule.enabled && (rule.request.url == url)
    && (jsToUpper rule.request.method == jsToUpper method)

/-- `checkMock` from `service-worker.js:214-245`.  `globalEnabled` is the
raw storage value (`none` when the key is absent); the code disables
mocking only when it is literally `false`.  `rules` is the stored rule
list. -/
def checkMock (globalEnabled : Option Bool) (rules : List Rule)
    (url method : String) : MatchDecision :=
  if globalEnabled = some false then noMockDecision
  else
    match rules.find? (fun rule => ruleMatches rule url method) with
    | some rule =>
        { shouldMock := true, response := some rule.response,
          ruleId := some rule.id, error := none }
    | none => noMockDecision

/-- The spec-level match predicate: enabled, byte-exact URL equality,
method equality up to ASCII case. -/
def specRuleMatch (rule : Rule) (url method : String) : Prop :=
  rule.enabled = true ∧ rule.request.url = url ∧
    jsToUpper rule.request.method = jsToUpper method

instance (rule : Rule) (url method : String) :
    Decidable (specRuleMatch rule url method) := by
  unfold specRuleMatch
  infer_instance

theorem ruleMatches_iff (rule : Rule) (url method : String) :
    ruleMatches rule url method = true ↔ specRuleMatch rule url method := by
  simp [ruleMatches, specRuleMatch, Bool.and_eq_true, beq_iff_eq, and_assoc]

theorem find?_append_cons {α : Type} (p : α → Bool) (pre : List α) (r : α)
    (post : List α) (hpre : ∀ x ∈ pre, p x = false) (hr : p r = true) :
    (pre ++ r :: post).find? p = some r := by
  induction pre with
  | nil => simp [List.find?_cons, hr]
  | cons a t ih =>
      have ha : p a = false := hpre a (by simp)
      simp only [List.cons_append, List.find?_cons, ha]
      exact ih (fun x hx => hpre x (by simp [hx]))

/-- **C1.** `checkMock` behaviour: (1) when the stored global flag is
literally `false` the reply is `shouldMock:false` regardless of the rules;
(2) otherwise, if the rule list splits as `pre ++ r :: post` where nothing
in `pre` matches and `r` is enabled with an exactly-equal URL and a
case-insensitively-equal method, the reply is `shouldMock:true` carrying
`r`'s response payload (first match wins); (3) otherwise, when no rule
matches, the reply is `shouldMock:false`; (4) in particular a rule stored
for URL `https://a/b` never matches a query for `https://a/b?x=1`,
whatever the methods and flag. -/
theorem checkMock_correct :
    (∀ (ge : Option Bool) (rules : List Rule) (url method : String),
      ge = some false →
      checkMock ge rules url method = noMockDecision) ∧
    (∀ (ge : Option Bool) (pre post : List Rule) (r : Rule)
        (url method : String),
      ge ≠ some false →
      (∀ x ∈ pre, ¬ specRuleMatch x url method) →
      specRuleMatch r url method →
      checkMock ge (pre ++ r :: post) url method =
        { shouldMock := true, response := some r.response,
          ruleId := some r.id, error := none }) ∧
    (∀ (ge : Option Bool) (rules : List Rule) (url method : String),
      (∀ x ∈ rules, ¬ specRuleMatch x url method) →
      checkMock ge rules url method = noMockDecision) ∧
    (∀ (ge : Option Bool) (rid : String) (en : Bool) (m qm : String)
        (resp : MockResponsePayload),
      checkMock ge [{ id := rid, enabled := en,
                      request := { url := "https://a/b", method := m },
                      response := resp }]
        "https://a/b?x=1" qm = noMockDecision) := by
  refine ⟨?_, ?_, ?_, ?_⟩
  · intro ge rules url method hge
    simp [checkMock, hge]
  · intro ge pre post r url method hge hpre hr
    have hfind : (pre ++ r :: post).find?
        (fun rule => ruleMatches rule url method) = some r := by
      apply find?_append_cons
      · intro x hx
        have := hpre x hx
        rw [← ruleMatches_iff] at this
        simpa using this
      · exact (ruleMatches_iff r url method).mpr hr
    simp [checkMock, hge, hfind]
  · intro ge rules url method hnone
    have hfind : rules.find? (fun rule => ruleMatches rule url method)
        = none := by
      rw [List.find?_eq_none]
      intro x hx
      have := hnone x hx
      rw [← ruleMatches_iff] at this
      simpa using this
    cases h : decide (ge = some false) with
    | true => simp [checkMock, of_decide_eq_true h]
    | false => simp [checkMock, of_decide_eq_false h, hfind]
  · intro ge rid en m qm resp
    have hne : ("https://a/b" == "https://a/b?x=1") = false := by decide
    have hfind : List.find?
        (fun rule => ruleMatches rule "https://a/b?x=1" qm)
        [{ id := rid, enabled := en,
           request := { url := "https://a/b", method := m },
           response := resp }] = none := by
      simp [List.find?_cons, ruleMatches, hne]
    cases h : decide (ge = some false) with
    | true => simp [checkMock, of_decide_eq_true h]
    | false => simp [checkMock, of_decide_eq_false h, hfind]

/-- Witness for `checkMock_correct`: the flag-off case at a concrete
state, a concrete first-match, a concrete no-match, and the query-string
non-match instance. -/
theorem checkMock_correct_witness :
    checkMock (some false) [] "https://a/b" "GET" = noMockDecision ∧
    checkMock (some true)
      [{ id := "r1", enabled := true,
         request := { url := "https://a/b", method := "get" },
         response := { status := some 201, statusText := some "Created",
                       headers := some [("Content-Type", "application/json")],
                       body := some "ok" } }]
      "https://a/b" "GET" =
      { shouldMock := true,
        response := some { status := some 201, statusText := some "Created",
                           headers := some [("Content-Type", "application/json")],
                           body := some "ok" },
        ruleId := some "r1", error := none } ∧
    checkMock none [] "https://a/b" "GET" = noMockDecision ∧
    checkMock (some true)
      [{ id := "r1", enabled := true,
         request := { url := "https://a/b", method := "GET" },
         response := { status := none, statusText := none,
                       headers := none, body := none } }]
      "https://a/b?x=1" "GET" = noMockDecision := by
  refine ⟨?_, ?_, ?_, ?_⟩
  · exact checkMock_correct.1 (some false) [] "https://a/b" "GET" rfl
  · exact checkMock_correct.2.1 (some true) [] []
      { id := "r1", enabled := true,
        request := { url := "https://a/b", method := "get" },
        response := { status := some 201, statusText := some "Created",
                      headers := some [("Content-Type", "application/json")],
                      body := some "ok" } }
      "https://a/b" "GET" (by decide) (by intro x hx; simp at hx) (by decide)
  · exact checkMock_correct.2.2.1 none [] "https://a/b" "GET"
      (by intro x hx; simp at hx)
  · exact checkMock_correct.2.2.2 (some true) "r1" true "GET" "GET"
      { status := none, statusText := none, headers := none, body := none }

/-! ## The pending-request registry of the injected shim

`injected.js` keeps `pendingRequests : Map requestId → {resolve, timeout}`.
We model the registry together with the stream of promise resolutions it
has delivered: `pending` is the list of correlation ids with a live entry
(whose timeout is armed), and `outcome` records each delivered resolution
`(correlationId, decision)` in delivery order.  The three events that
mutate this state are issuing a query (`checkMock`, `injected.js:26-46`),
a timeout firing (`injected.js:31-34`), and a `MOCK_RESPONSE` reply
arriving (`injected.js:51-65`). -/

/-- State of the injected script's correlation machinery. -/
structure ShimState where
  pending : List String
  outcome : List (String × MatchDecision)
deriving DecidableEq, Repr

/-- Events hitting the pending-request registry. -/
inductive ShimEvent where
  | issue (id : String)
  | timeoutFire (id : String)
  | reply (id : String) (payload : MatchDecision)
deriving DecidableEq, Repr

/-- One step of the registry.  `issue` installs a fresh entry
(`pendingRequests.set`).  `timeoutFire` models the armed timeout callback:
it deletes the entry and resolves the promise with `shouldMock:false`; the
timer is armed exactly while the entry is live (a reply clears it), so the
event is a no-op otherwise.  `reply` models the `MOCK_RESPONSE` listener:
only when a pending entry exists for its correlation id does it clear the
timeout, delete the entry and resolve with the carried payload; otherwise
it does nothing. -/
def shimStep (s : ShimState) : ShimEvent → ShimState
  | .issue id => { pending := s.pending ++ [id], outcome := s.outcome }
  | .timeoutFire id =>
      if id ∈ s.pending then
        { pending := s.pending.erase id,
          outcome := s.outcome ++ [(id, noMockDecision)] }
      else s
  | .reply id payload =>
      if id ∈ s.pending then
        { pending := s.pending.erase id,
          outcome := s.outcome ++ [(id, payload)] }
      else s

/-- Run a list of events from a state. -/
def runShim (s : ShimState) (es : List ShimEvent) : ShimState :=
  es.foldl shimStep s

/-- The empty registry the page starts with. -/
def initShimState : ShimState := { pending := [], outcome := [] }

/-- Number of live entries for a correlation id. -/
def pendingCount (id : String) (s : ShimState) : Nat :=
  s.pending.count id

/-- Number of resolutions delivered for a correlation id. -/
def outcomeCount (id : String) (s : ShimState) : Nat :=
  (s.outcome.filter (fun x => x.1 == id)).length

/-- Number of `issue` events for a correlation id in an event list. -/
def issueCount (id : String) (es : List ShimEvent) : Nat :=
  (es.filter (fun e => match e with
    | .issue j => j == id
    | _ => false)).length

/-- The message the content script posts back for a `CHECK_MOCK` query
(`interceptor.js:26-49`): on success the service worker's decision is
relayed under the same correlation id; if forwarding throws, a
`shouldMock:false` payload carrying the error message is posted instead. -/
structure ReplyMessage where
  requestId : String
  payload : MatchDecision
deriving DecidableEq, Repr

/-- The Decision Relay's reply construction (`interceptor.js:26-49`). -/
def interceptorReply (requestId : String)
    (forwarded : Except String MatchDecision) : ReplyMessage :=
  match forwarded with
  | .ok d => { requestId := requestId, payload := d }
  | .error e =>
      { requestId := requestId,
        payload := { shouldMock := false, response := none,
                     ruleId := none, error := some e } }

theorem outcomeCount_append (id : String) (o : List (String × MatchDecision))
    (x : String × MatchDecision) :
    ((o ++ [x]).filter (fun y => y.1 == id)).length =
      (o.filter (fun y => y.1 == id)).length + (if x.1 = id then 1 else 0) := by
  by_cases h : x.1 = id <;> simp [List.filter_append, h]

/-- Each step preserves `outcomeCount + pendingCount` except that an
`issue` for the id may raise it by one: resolutions can only be delivered
by consuming a live pending entry. -/
theorem outcome_pending_step (id : String) (s : ShimState) (e : ShimEvent) :
    outcomeCount id (shimStep s e) + pendingCount id (shimStep s e) ≤
      outcomeCount id s + pendingCount id s + issueCount id [e] := by
  cases e with
  | issue j =>
      by_cases h : j = id
      · subst h
        simp [shimStep, outcomeCount, pendingCount, issueCount,
          List.count_append, List.count_singleton]
        omega
      · simp [shimStep, outcomeCount, pendingCount, issueCount,
          List.count_append, List.count_singleton', h, Ne.symm h]
  | timeoutFire j =>
      by_cases hmem : j ∈ s.pending
      · have hpos : 0 < s.pending.count j := List.count_pos_iff.mpr hmem
        by_cases h : j = id
        · subst h
          simp [shimStep, hmem, outcomeCount, pendingCount, issueCount,
            outcomeCount_append, List.count_erase_self]
          omega
        · simp [shimStep, hmem, outcomeCount, pendingCount, issueCount,
            outcomeCount_append, List.count_erase_of_ne (Ne.symm h), h]
      · simp [shimStep, hmem, issueCount]
  | reply j p =>
      by_cases hmem : j ∈ s.pending
      · have hpos : 0 < s.pending.count j := List.count_pos_iff.mpr hmem
        by_cases h : j = id
        · subst h
          simp [shimStep, hmem, outcomeCount, pendingCount, issueCount,
            outcomeCount_append, List.count_erase_self]
          omega
        · simp [shimStep, hmem, outcomeCount, pendingCount, issueCount,
            outcomeCount_append, List.count_erase_of_ne (Ne.symm h), h]
      · simp [shimStep, hmem, issueCount]

theorem issueCount_cons (id : String) (e : ShimEvent) (es : List ShimEvent) :
    issueCount id (e :: es) = issueCount id [e] + issueCount id es := by
  cases e with
  | issue j =>
      by_cases h : j = id
      · simp [issueCount, List.filter_cons, h]
        omega
      · simp [issueCount, List.filter_cons, h]
  | timeoutFire j => simp [issueCount, List.filter_cons]
  | reply j p => simp [issueCount, List.filter_cons]

/-- Over any event trace, the number of delivered resolutions plus the
number of live entries for an id is bounded by its initial value plus the
number of `issue` events for that id. -/
theorem outcome_pending_run (id : String) (es : List ShimEvent)
    (s : ShimState) :
    outcomeCount id (runShim s es) + pendingCount id (runShim s es) ≤
      outcomeCount id s + pendingCount id s + issueCount id es := by
  induction es generalizing s with
  | nil => simp [runShim, issueCount]
  | cons e es ih =>
      have h1 := outcome_pending_step id s e
      have h2 := ih (shimStep s e)
      have : runShim s (e :: es) = runShim (shimStep s e) es := by
        simp [runShim]
      rw [this, issueCount_cons]
      omega

/-- **C2.** Degradation to the real network: (1) when the one-second
timeout fires while the entry is still pending, the entry is removed and
the promise resolves with `shouldMock:false`; (2) when forwarding to the
Rule Authority's context throws, the relay posts back, under the same
correlation id, a payload with `shouldMock:false` and no response; (3)
delivering that failure payload to a pending entry removes the entry and
resolves the call with a `shouldMock:false` decision — never an error. -/
theorem timeout_and_transport_degrade :
    (∀ (s : ShimState) (id : String),
      id ∈ s.pending →
      shimStep s (.timeoutFire id) =
        { pending := s.pending.erase id,
          outcome := s.outcome ++ [(id, noMockDecision)] } ∧
      noMockDecision.shouldMock = false) ∧
    (∀ (id e : String),
      (interceptorReply id (.error e)).requestId = id ∧
      (interceptorReply id (.error e)).payload.shouldMock = false ∧
      (interceptorReply id (.error e)).payload.response = none) ∧
    (∀ (s : ShimState) (id e : String),
      id ∈ s.pending →
      shimStep s (.reply id (interceptorReply id (.error e)).payload) =
        { pending := s.pending.erase id,
          outcome := s.outcome ++
            [(id, (interceptorReply id (.error e)).payload)] }) := by
  refine ⟨?_, ?_, ?_⟩
  · intro s id hmem
    exact ⟨by simp [shimStep, hmem], rfl⟩
  · intro id e
    exact ⟨rfl, rfl, rfl⟩
  · intro s id e hmem
    simp [shimStep, hmem]

/-- Witness for `timeout_and_transport_degrade` at a concrete pending
state and correlation id. -/
theorem timeout_and_transport_degrade_witness :
    shimStep { pending := ["req_1"], outcome := [] }
        (.timeoutFire "req_1") =
      { pending := [], outcome := [("req_1", noMockDecision)] } ∧
    (interceptorReply "req_1" (.error "no receiver")).payload.shouldMock
      = false ∧
    shimStep { pending := ["req_1"], outcome := [] }
        (.reply "req_1"
          (interceptorReply "req_1" (.error "no receiver")).payload) =
      { pending := [],
        outcome := [("req_1",
          (interceptorReply "req_1" (.error "no receiver")).payload)] } := by
  refine ⟨?_, ?_, ?_⟩
  · have h := (timeout_and_transport_degrade.1
      { pending := ["req_1"], outcome := [] } "req_1" (by decide)).1
    simpa using h
  · exact (timeout_and_transport_degrade.2.1 "req_1" "no receiver").2.1
  · have h := timeout_and_transport_degrade.2.2
      { pending := ["req_1"], outcome := [] } "req_1" "no receiver"
      (by decide)
    simpa using h

/-- **C3.** Idempotent removal and correlation: (1) a `MOCK_RESPONSE`
whose correlation id has no pending entry (already resolved or timed out)
changes nothing; (2) a timeout firing for an absent entry changes nothing;
(3) a reply touches only its own correlation id — every other id keeps its
pending entries and delivered resolutions; (4) over any event trace from
the initial empty registry, an id issued at most once is resolved at most
once. -/
theorem correlation_idempotent :
    (∀ (s : ShimState) (id : String) (p : MatchDecision),
      id ∉ s.pending → shimStep s (.reply id p) = s) ∧
    (∀ (s : ShimState) (id : String),
      id ∉ s.pending → shimStep s (.timeoutFire id) = s) ∧
    (∀ (s : ShimState) (id other : String) (p : MatchDecision),
      other ≠ id →
      pendingCount other (shimStep s (.reply id p)) = pendingCount other s ∧
      outcomeCount other (shimStep s (.reply id p)) = outcomeCount other s) ∧
    (∀ (es : List ShimEvent) (id : String),
      issueCount id es ≤ 1 →
      outcomeCount id (runShim initShimState es) ≤ 1) := by
  refine ⟨?_, ?_, ?_, ?_⟩
  · intro s id p hmem
    simp [shimStep, hmem]
  · intro s id hmem
    simp [shimStep, hmem]
  · intro s id other p hne
    by_cases hmem : id ∈ s.pending
    · constructor
      · simp [shimStep, hmem, pendingCount, List.count_erase_of_ne hne]
      · simp [shimStep, hmem, outcomeCount, outcomeCount_append,
          Ne.symm hne]
    · simp [shimStep, hmem]
  · intro es id h
    have h1 := outcome_pending_run id es initShimState
    have h0 : outcomeCount id initShimState = 0 := rfl
    have h0' : pendingCount id initShimState = 0 := rfl
    omega

/-- Witness for `correlation_idempotent`: a late duplicate reply on an
empty registry, a late timeout, locality of a reply for a different id,
and a concrete trace where the id is issued once, resolved once, and a
duplicate reply is dropped. -/
theorem correlation_idempotent_witness :
    shimStep { pending := [], outcome := [("req_1", noMockDecision)] }
        (.reply "req_1" noMockDecision) =
      { pending := [], outcome := [("req_1", noMockDecision)] } ∧
    shimStep { pending := ["req_2"], outcome := [] }
        (.timeoutFire "req_1") =
      { pending := ["req_2"], outcome := [] } ∧
    pendingCount "req_2"
        (shimStep { pending := ["req_1", "req_2"], outcome := [] }
          (.reply "req_1" noMockDecision)) =
      pendingCount "req_2" { pending := ["req_1", "req_2"], outcome := [] } ∧
    outcomeCount "req_1"
        (runShim initShimState
          [.issue "req_1", .reply "req_1" noMockDecision,
           .reply "req_1" noMockDecision]) ≤ 1 := by
  refine ⟨?_, ?_, ?_, ?_⟩
  · exact correlation_idempotent.1
      { pending := [], outcome := [("req_1", noMockDecision)] }
      "req_1" noMockDecision (by decide)
  · exact correlation_idempotent.2.1
      { pending := ["req_2"], outcome := [] } "req_1" (by decide)
  · exact (correlation_idempotent.2.2.1
      { pending := ["req_1", "req_2"], outcome := [] }
      "req_1" "req_2" noMockDecision (by decide)).1
  · exact correlation_idempotent.2.2.2
      [.issue "req_1", .reply "req_1" noMockDecision,
       .reply "req_1" noMockDecision] "req_1" (by decide)

/-! ## The call-site shims

The fetch override (`injected.js:74-115`) and the XHR `open`/`send`
overrides (`injected.js:136-169`).  URL resolution (`new URL(url,
origin)`) is a host primitive; it is modelled as an arbitrary partial
function `resolve : String → Option String` (`some href` when parsing
succeeds, `none` when the constructor throws), and the `try`/`catch`
around it is the `none` fallback of `normalizeUrl`.  The original
primitives are likewise parameters; each shim returns, alongside its
result, the list of argument tuples it passed to the original primitive,
so "the original is invoked exactly once with the unmodified arguments"
is the statement that this list is the singleton of the original
arguments. -/

/-- URL normalization with the `try`/`catch` fallback
(`injected.js:87-91` and `142-146`): the resolved absolute `href` when
parsing succeeds, the literal input string unmodified otherwise. -/
def normalizeUrl (resolve : String → Option String) (url : String) :
    String :=
  match resolve url with
  | some href => href
  | none => url

/-- The first argument of the fetch override: either a `Request` instance
(with its `url` and `method` fields) or any other value, already converted
by `String(input)`. -/
inductive FetchInput where
  | request (url : String) (method : String)
  | other (s : String)
deriving DecidableEq, Repr

/-- The `init` options object of the fetch override (the one field the
shim reads). -/
structure FetchInit where
  method : Option String
deriving DecidableEq, Repr

/-- URL extraction before normalization (`injected.js:78-84`). -/
def fetchRawUrl : FetchInput → String
  | .request u _ => u
  | .other s => s

/-- Method extraction (`injected.js:80,83`): `input.method || 'GET'` for a
`Request`, `init.method || 'GET'` otherwise. -/
def fetchRawMethod : FetchInput → FetchInit → String
  | .request _ m, _ => jsOrString (some m) "GET"
  | .other _, init => jsOrString init.method "GET"

/-- The normalized (url, method) pair the fetch shim derives
(`injected.js:76-91`). -/
def extractFetchArgs (resolve : String → Option String)
    (input : FetchInput) (init : FetchInit) : String × String :=
  (normalizeUrl resolve (fetchRawUrl input), fetchRawMethod input init)

/-- The synthetic `Response` the fetch shim constructs
(`injected.js:99-110`). -/
structure SyntheticResponse where
  status : Nat
  statusText : String
  headers : List (String × String)
  body : String
deriving DecidableEq, Repr

/-- `new Response(body || '', {status: status || 200, statusText:
statusText || 'OK', headers: new Headers(headers || empty)})`
(`injected.js:99-110`). -/
def buildFetchResponse (p : MockResponsePayload) : SyntheticResponse :=
  { status := jsOrNat p.status 200
  , statusText := jsOrString p.statusText "OK"
  , headers := p.headers.getD []
  , body := p.body.getD "" }

/-- What the fetch shim returns: a synthetic mock response or the value
produced by the original `fetch`. -/
inductive FetchOutcome (α : Type) where
  | mock (r : SyntheticResponse)
  | real (v : α)
deriving DecidableEq, Repr

/-- The fetch override (`injected.js:74-115`).  `decideFn` is the awaited
`checkMock` decision for a (url, uppercased method) key; `orig` is the
original `fetch` primitive, which may return a value or an error.  The
second component lists the argument tuples passed to the original
primitive. -/
def fetchShim {ε α : Type} (resolve : String → Option String)
    (decideFn : String → String → MatchDecision)
    (orig : FetchInput → FetchInit → Except ε α)
    (input : FetchInput) (init : FetchInit) :
    Except ε (FetchOutcome α) × List (FetchInput × FetchInit) :=
  let extracted := extractFetchArgs resolve input init
  let mockCheck := decideFn extracted.1 (jsToUpper extracted.2)
  match mockCheck.shouldMock, mockCheck.response with
  | true, some p => (Except.ok (FetchOutcome.mock (buildFetchResponse p)), [])
  | true, none => ((orig input init).map FetchOutcome.real, [(input, init)])
  | false, _ => ((orig input init).map FetchOutcome.real, [(input, init)])

/-- The per-instance record the XHR override keeps (`injected.js:122-128`,
the fields `open`/`send` use). -/
structure XhrInfo where
  method : String
  url : String
  isAsync : Bool
deriving DecidableEq, Repr

/-- The `open` override (`injected.js:136-149`): records the uppercased
method and the normalized url on the instance, then forwards to the
original `open` with the original (unnormalized) arguments.  The second
component lists the argument tuples passed to the original `open`. -/
def xhrOpenShim (resolve : String → Option String) (info : XhrInfo)
    (method url : String) (isAsync : Bool) :
    XhrInfo × List (String × String × Bool) :=
  ({ method := jsToUpper method,
     url := normalizeUrl resolve url,
     isAsync := isAsync },
   [(method, url, isAsync)])

/-- What a mocked or unmocked `send` does: drive `simulateMockedXHR` with
the decision's payload, or the original `send`'s result. -/
inductive SendAction (β : Type) where
  | mockSimulation (p : MockResponsePayload)
  | origSendResult (r : β)
deriving DecidableEq, Repr

instance {ε β : Type} [DecidableEq ε] [DecidableEq β] :
    DecidableEq (Except ε β) := fun x y =>
  match x, y with
  | .ok a, .ok b =>
      if h : a = b then .isTrue (by rw [h])
      else .isFalse (by intro hh; cases hh; exact h rfl)
  | .ok _, .error _ => .isFalse (by intro h; cases h)
  | .error _, .ok _ => .isFalse (by intro h; cases h)
  | .error a, .error b =>
      if h : a = b then .isTrue (by rw [h])
      else .isFalse (by intro hh; cases hh; exact h rfl)

/-- How a `send` implementation delivers its result: a plain (synchronous)
function returns the value or throws synchronously; an `async function`
always returns a promise that later settles to the value or error. -/
inductive SendReturn (ε β : Type) where
  | syncOf (r : Except ε β)
  | promiseOf (r : Except ε β)
deriving DecidableEq, Repr

/-- The `send` override (`injected.js:152-169`).  It is an `async
function`: it awaits the decision for the (url, method) recorded at `open`
time, then either starts the mock simulation (never calling the original
`send`) or calls the original `send` with the original body; either way
its return value is a promise.  The second component lists the bodies
passed to the original `send`. -/
def xhrSendShim {ε β : Type} (decideFn : String → String → MatchDecision)
    (origSend : Option String → Except ε β) (info : XhrInfo)
    (body : Option String) :
    SendReturn ε (SendAction β) × List (Option String) :=
  let mockCheck := decideFn info.url info.method
  match mockCheck.shouldMock, mockCheck.response with
  | true, some p => (.promiseOf (.ok (.mockSimulation p)), [])
  | true, none => (.promiseOf ((origSend body).map .origSendResult), [body])
  | false, _ => (.promiseOf ((origSend body).map .origSendResult), [body])

/-- The unmodified native `send`: a synchronous call that returns or
throws in place. -/
def nativeSend {ε β : Type} (origSend : Option String → Except ε β)
    (body : Option String) :
    SendReturn ε (SendAction β) × List (Option String) :=
  (.syncOf ((origSend body).map .origSendResult), [body])

/-- **C4.** When the awaited decision is `shouldMock:true` with a present
response payload, the fetch shim returns a synthetic response whose status
and statusText come from the payload (defaulting to `200` / `"OK"` when
absent or falsy-empty), whose header collection is seeded from the
payload's headers map, and whose body is the payload's body string (empty
when absent) — and the original fetch primitive is never invoked (the call
list is empty). -/
theorem fetch_mock_branch {ε α : Type}
    (resolve : String → Option String)
    (decideFn : String → String → MatchDecision)
    (orig : FetchInput → FetchInit → Except ε α)
    (input : FetchInput) (init : FetchInit) (p : MockResponsePayload)
    (rid err : Option String)
    (hdec : decideFn (extractFetchArgs resolve input init).1
        (jsToUpper (extractFetchArgs resolve input init).2) =
      { shouldMock := true, response := some p, ruleId := rid,
        error := err }) :
    fetchShim resolve decideFn orig input init =
      (Except.ok (FetchOutcome.mock
        { status := jsOrNat p.status 200
        , statusText := jsOrString p.statusText "OK"
        , headers := p.headers.getD []
        , body := p.body.getD "" }), []) := by
  simp [fetchShim, hdec, buildFetchResponse]

/-- Witness for `fetch_mock_branch`: a concrete affirmative decision with
a partially-defaulted payload. -/
theorem fetch_mock_branch_witness :
    fetchShim (ε := String) (α := Unit) (fun _ => none)
      (fun _ _ =>
        { shouldMock := true,
          response := some { status := some 201,
                             statusText := some "Created",
                             headers := some [("Content-Type", "application/json")],
                             body := none },
          ruleId := some "r1", error := none })
      (fun _ _ => Except.ok ()) (.other "https://api.x/users")
      { method := some "POST" } =
      (Except.ok (FetchOutcome.mock
        { status := 201, statusText := "Created"
        , headers := [("Content-Type", "application/json")]
        , body := "" }), []) := by
  have h := fetch_mock_branch (ε := String) (α := Unit) (fun _ => none)
    (fun _ _ =>
      { shouldMock := true,
        response := some { status := some 201,
                           statusText := some "Created",
                           headers := some [("Content-Type", "application/json")],
                           body := none },
        ruleId := some "r1", error := none })
    (fun _ _ => Except.ok ()) (.other "https://api.x/users")
    { method := some "POST" }
    { status := some 201, statusText := some "Created",
      headers := some [("Content-Type", "application/json")], body := none }
    (some "r1") none rfl
  simpa using h

/-- **C6 counterexample.** The claim that an unmocked `send` is observably
identical to the unmodified primitive — "including return value and
synchronous/asynchronous behavior of send" — fails: the overridden `send`
is an `async function`, so at a concrete unmocked call whose original
`send` throws synchronously (an `InvalidStateError`), the native primitive
throws in place while the shim returns a promise that rejects; the return
shapes differ. -/
theorem send_shim_not_sync_identical :
    xhrSendShim (fun _ _ => noMockDecision)
        (fun _ => (Except.error "InvalidStateError" : Except String Unit))
        { method := "GET", url := "https://a/b", isAsync := true } none ≠
      nativeSend
        (fun _ => (Except.error "InvalidStateError" : Except String Unit))
        none := by
  decide

/-- **C6 (amended).** For every decision with `shouldMock:false`: the
fetch shim invokes the original fetch exactly once with the original,
unmodified arguments and returns its result or propagates its error
unchanged; the XHR shim invokes the original `send` exactly once with the
original body and delivers its result or error through the promise
returned by the overridden (async) `send` — the value/error is unchanged,
but `send`'s return value is a promise rather than the native synchronous
return. -/
theorem unmocked_passthrough :
    (∀ {ε α : Type} (resolve : String → Option String)
        (decideFn : String → String → MatchDecision)
        (orig : FetchInput → FetchInit → Except ε α)
        (input : FetchInput) (init : FetchInit),
      (decideFn (extractFetchArgs resolve input init).1
        (jsToUpper (extractFetchArgs resolve input init).2)).shouldMock
          = false →
      fetchShim resolve decideFn orig input init =
        ((orig input init).map FetchOutcome.real, [(input, init)])) ∧
    (∀ {ε β : Type} (decideFn : String → String → MatchDecision)
        (origSend : Option String → Except ε β) (info : XhrInfo)
        (body : Option String),
      (decideFn info.url info.method).shouldMock = false →
      xhrSendShim decideFn origSend info body =
        (.promiseOf ((origSend body).map .origSendResult), [body])) := by
  constructor
  · intro ε α resolve decideFn orig input init hsm
    simp [fetchShim, hsm]
  · intro ε β decideFn origSend info body hsm
    simp [xhrSendShim, hsm]

/-- Witness for `unmocked_passthrough`: a concrete `shouldMock:false`
decision, with an original fetch that succeeds and an original `send` that
throws; the shim passes both through unchanged. -/
theorem unmocked_passthrough_witness :
    fetchShim (ε := String) (α := Nat) (fun _ => none)
        (fun _ _ => noMockDecision) (fun _ _ => Except.ok 7)
        (.other "https://a/b") { method := none } =
      (Except.ok (FetchOutcome.real 7),
       [(.other "https://a/b", { method := none })]) ∧
    xhrSendShim (ε := String) (β := Unit) (fun _ _ => noMockDecision)
        (fun _ => Except.error "network down")
        { method := "GET", url := "https://a/b", isAsync := true } none =
      (.promiseOf (Except.error "network down"), [none]) := by
  constructor
  · have h := unmocked_passthrough.1 (ε := String) (α := Nat)
      (fun _ => none) (fun _ _ => noMockDecision) (fun _ _ => Except.ok 7)
      (.other "https://a/b") { method := none } rfl
    simpa using h
  · have h := unmocked_passthrough.2 (ε := String) (β := Unit)
      (fun _ _ => noMockDecision) (fun _ => Except.error "network down")
      { method := "GET", url := "https://a/b", isAsync := true } none rfl
    simpa using h

/-- **C8.** URL extraction is total and never fails the call: (1) when
resolution fails the literal string is used unmodified, (2) when it
succeeds the normalized absolute href is used, (3) the fetch shim's
extracted pair is exactly (resolved-or-literal url, extracted method), so
a failing resolver leaves the literal url in the query, and (4) the `open`
override records the resolved-or-literal url and (5) always forwards to
the original `open` exactly once with the original, unmodified arguments,
so the call proceeds to the original primitive's own error behavior. -/
theorem url_extraction_total :
    (∀ (resolve : String → Option String) (url : String),
      resolve url = none → normalizeUrl resolve url = url) ∧
    (∀ (resolve : String → Option String) (url href : String),
      resolve url = some href → normalizeUrl resolve url = href) ∧
    (∀ (resolve : String → Option String) (input : FetchInput)
        (init : FetchInit),
      resolve (fetchRawUrl input) = none →
      extractFetchArgs resolve input init =
        (fetchRawUrl input, fetchRawMethod input init)) ∧
    (∀ (resolve : String → Option String) (info : XhrInfo)
        (method url : String) (isAsync : Bool),
      resolve url = none →
      (xhrOpenShim resolve info method url isAsync).1 =
        { method := jsToUpper method, url := url, isAsync := isAsync }) ∧
    (∀ (resolve : String → Option String) (info : XhrInfo)
        (method url : String) (isAsync : Bool),
      (xhrOpenShim resolve info method url isAsync).2 =
        [(method, url, isAsync)]) := by
  refine ⟨?_, ?_, ?_, ?_, ?_⟩
  · intro resolve url h
    simp [normalizeUrl, h]
  · intro resolve url href h
    simp [normalizeUrl, h]
  · intro resolve input init h
    simp [extractFetchArgs, normalizeUrl, h]
  · intro resolve info method url isAsync h
    simp [xhrOpenShim, normalizeUrl, h]
  · intro resolve info method url isAsync
    rfl

/-- Witness for `url_extraction_total` with a resolver that rejects the
malformed literal `http://[` and resolves a relative path. -/
theorem url_extraction_total_witness :
    normalizeUrl (fun _ => none) "http://[" = "http://[" ∧
    normalizeUrl (fun _ => some "https://o/a") "/a" = "https://o/a" ∧
    extractFetchArgs (fun _ => none) (.other "http://[")
      { method := some "post" } = ("http://[", "post") ∧
    (xhrOpenShim (fun _ => none)
        { method := "GET", url := "", isAsync := true }
        "delete" "http://[" true).1 =
      { method := "DELETE", url := "http://[", isAsync := true } ∧
    (xhrOpenShim (fun _ => none)
        { method := "GET", url := "", isAsync := true }
        "delete" "http://[" true).2 = [("delete", "http://[", true)] := by
  refine ⟨?_, ?_, ?_, ?_, ?_⟩
  · exact url_extraction_total.1 (fun _ => none) "http://[" rfl
  · exact url_extraction_total.2.1 (fun _ => some "https://o/a") "/a"
      "https://o/a" rfl
  · have h := url_extraction_total.2.2.1 (fun _ => none)
      (.other "http://[") { method := some "post" } rfl
    simpa [fetchRawUrl, fetchRawMethod, jsOrString] using h
  · have h := url_extraction_total.2.2.2.1 (fun _ => none)
      { method := "GET", url := "", isAsync := true } "delete" "http://["
      true rfl
    simpa [show jsToUpper "delete" = "DELETE" from rfl] using h
  · exact url_extraction_total.2.2.2.2 (fun _ => none)
      { method := "GET", url := "", isAsync := true } "delete" "http://["
      true

/-- **C10.** A malformed affirmative decision — `shouldMock:true` with the
response payload absent — is treated as unmocked by both shims: the mock
branch requires both `shouldMock` and a present payload, so the original
primitive is invoked exactly once with the original arguments. -/
theorem malformed_decision_passthrough :
    (∀ {ε α : Type} (resolve : String → Option String)
        (decideFn : String → String → MatchDecision)
        (orig : FetchInput → FetchInit → Except ε α)
        (input : FetchInput) (init : FetchInit),
      (decideFn (extractFetchArgs resolve input init).1
        (jsToUpper (extractFetchArgs resolve input init).2)).response
          = none →
      fetchShim resolve decideFn orig input init =
        ((orig input init).map FetchOutcome.real, [(input, init)])) ∧
    (∀ {ε β : Type} (decideFn : String → String → MatchDecision)
        (origSend : Option String → Except ε β) (info : XhrInfo)
        (body : Option String),
      (decideFn info.url info.method).response = none →
      xhrSendShim decideFn origSend info body =
        (.promiseOf ((origSend body).map .origSendResult), [body])) := by
  constructor
  · intro ε α resolve decideFn orig input init hresp
    cases hb : (decideFn (extractFetchArgs resolve input init).1
        (jsToUpper (extractFetchArgs resolve input init).2)).shouldMock <;>
      simp [fetchShim, hresp, hb]
  · intro ε β decideFn origSend info body hresp
    cases hb : (decideFn info.url info.method).shouldMock <;>
      simp [xhrSendShim, hresp, hb]

/-- Witness for `malformed_decision_passthrough`: a decision with
`shouldMock:true` but no payload degrades to the real primitive on both
paths. -/
theorem malformed_decision_passthrough_witness :
    fetchShim (ε := String) (α := Nat) (fun _ => none)
        (fun _ _ => { shouldMock := true, response := none,
                      ruleId := some "r1", error := none })
        (fun _ _ => Except.ok 7) (.other "https://a/b")
        { method := none } =
      (Except.ok (FetchOutcome.real 7),
       [(.other "https://a/b", { method := none })]) ∧
    xhrSendShim (ε := String) (β := Unit)
        (fun _ _ => { shouldMock := true, response := none,
                      ruleId := some "r1", error := none })
        (fun _ => Except.ok ())
        { method := "GET", url := "https://a/b", isAsync := true }
        (some "payload") =
      (.promiseOf (Except.ok (.origSendResult ())), [some "payload"]) := by
  constructor
  · have h := malformed_decision_passthrough.1 (ε := String) (α := Nat)
      (fun _ => none)
      (fun _ _ => { shouldMock := true, response := none,
                    ruleId := some "r1", error := none })
      (fun _ _ => Except.ok 7) (.other "https://a/b") { method := none } rfl
    simpa using h
  · have h := malformed_decision_passthrough.2 (ε := String) (β := Unit)
      (fun _ _ => { shouldMock := true, response := none,
                    ruleId := some "r1", error := none })
      (fun _ => Except.ok ())
      { method := "GET", url := "https://a/b", isAsync := true }
      (some "payload") rfl
    simpa using h

/-! ## Header introspection on a mocked XHR (`injected.js:212-238`) -/

/-- The headers string `getAllResponseHeaders` returns
(`injected.js:213-221`): a fold over the payload's header entries
appending "Key: value" plus CRLF for each; empty when the payload has no
headers map. -/
def buildHeadersString (headers : Option (List (String × String))) :
    String :=
  match headers with
  | none => ""
  | some hs =>
      hs.foldl (fun acc kv => acc ++ kv.1 ++ ": " ++ kv.2 ++ "\r\n") ""

/-- Spec-side description of the combined-headers listing: the
CRLF-terminated "Name: value" lines joined in order, names in their
original case. -/
def headerListing (hs : List (String × String)) : String :=
  String.join (hs.map (fun kv => kv.1 ++ ": " ++ kv.2 ++ "\r\n"))

/-- The JS `headers[name]` truthiness test of `injected.js:225`: the value
under the exact key, unless it is the (falsy) empty string. -/
def lookupTruthy (hs : List (String × String)) (name : String) :
    Option String :=
  match hs.find? (fun kv => kv.1 == name) with
  | some kv => if kv.2 = "" then none else some kv.2
  | none => none

/-- `getResponseHeader` override (`injected.js:224-238`): direct truthy
lookup first, then a case-insensitive scan comparing lowercased keys,
finally the `null` sentinel. -/
def getResponseHeader (headers : Option (List (String × String)))
    (name : String) : Option String :=
  match headers with
  | none => none
  | some hs =>
      match lookupTruthy hs name with
      | some v => some v
      | none =>
          match hs.find? (fun kv => jsToLower kv.1 == jsToLower name) with
          | some kv => some kv.2
          | none => none

theorem buildHeadersString_eq_headerListing (hs : List (String × String)) :
    buildHeadersString (some hs) = headerListing hs := by
  have hf : (fun (acc : String) (kv : String × String) =>
      acc ++ kv.1 ++ ": " ++ kv.2 ++ "\r\n") =
      (fun (acc : String) (kv : String × String) =>
        acc ++ (kv.1 ++ ": " ++ kv.2 ++ "\r\n")) := by
    funext acc kv
    simp [String.append_assoc]
  show hs.foldl (fun acc kv => acc ++ kv.1 ++ ": " ++ kv.2 ++ "\r\n") ""
      = headerListing hs
  rw [hf]
  simp [headerListing, String.join, List.foldl_map]

theorem lookupTruthy_some_mem {hs : List (String × String)}
    {name v : String} (h : lookupTruthy hs name = some v) :
    ∃ kv ∈ hs, kv.1 = name ∧ kv.2 = v := by
  unfold lookupTruthy at h
  cases hF : hs.find? (fun kv => kv.1 == name) with
  | none => rw [hF] at h; cases h
  | some kv0 =>
      rw [hF] at h
      by_cases he : kv0.2 = ""
      · simp [he] at h
      · simp only [he, if_false] at h
        refine ⟨kv0, List.mem_of_find?_eq_some hF, ?_, Option.some.inj h⟩
        have hp := List.find?_some hF
        simpa [beq_iff_eq] using hp

/-- **C7.** Header introspection on a mocked XHR: (1) the combined-headers
accessor returns the CRLF-joined "Name: value" listing of the payload's
header entries in order, original key case preserved; (2) the
single-header accessor finds a value exactly when some payload key equals
the queried name up to ASCII case; (3) when exactly one entry's key
matches case-insensitively, its value is returned — so `Content-Type` is
retrievable via `content-type`; (4) when no key matches, the result is
the `null` sentinel, not an exception. -/
theorem header_introspection :
    (∀ (hs : List (String × String)),
      buildHeadersString (some hs) = headerListing hs) ∧
    (∀ (hs : List (String × String)) (name : String),
      (getResponseHeader (some hs) name).isSome ↔
        ∃ kv ∈ hs, jsToLower kv.1 = jsToLower name) ∧
    (∀ (hs : List (String × String)) (name : String)
        (kv : String × String),
      kv ∈ hs → jsToLower kv.1 = jsToLower name →
      (∀ kv2 ∈ hs, jsToLower kv2.1 = jsToLower name → kv2 = kv) →
      getResponseHeader (some hs) name = some kv.2) ∧
    (∀ (hs : List (String × String)) (name : String),
      (∀ kv ∈ hs, jsToLower kv.1 ≠ jsToLower name) →
      getResponseHeader (some hs) name = none) := by
  refine ⟨buildHeadersString_eq_headerListing, ?_, ?_, ?_⟩
  · intro hs name
    cases hLT : lookupTruthy hs name with
    | some v =>
        simp only [getResponseHeader, hLT, Option.isSome_some, true_iff]
        obtain ⟨kv0, h0mem, h0name, _⟩ := lookupTruthy_some_mem hLT
        exact ⟨kv0, h0mem, by rw [h0name]⟩
    | none =>
        simp only [getResponseHeader, hLT]
        cases hF : hs.find? (fun kv => jsToLower kv.1 == jsToLower name) with
        | some kv1 =>
            simp only [Option.isSome_some, true_iff]
            refine ⟨kv1, List.mem_of_find?_eq_some hF, ?_⟩
            have hp := List.find?_some hF
            simpa [beq_iff_eq] using hp
        | none =>
            simp only [Option.isSome_none, Bool.false_eq_true, false_iff]
            rw [List.find?_eq_none] at hF
            rintro ⟨kv, hmem, hlow⟩
            have := hF kv hmem
            simp [hlow] at this
  · intro hs name kv hmem hlow huniq
    cases hLT : lookupTruthy hs name with
    | some v =>
        obtain ⟨kv0, h0mem, h0name, h0val⟩ := lookupTruthy_some_mem hLT
        have hkv : kv0 = kv := huniq kv0 h0mem (by rw [h0name])
        simp [getResponseHeader, hLT, ← h0val, hkv]
    | none =>
        have hex : ∃ x, x ∈ hs ∧
            (jsToLower x.1 == jsToLower name) = true :=
          ⟨kv, hmem, by simp [hlow]⟩
        have hsome :
            (hs.find? (fun kv2 => jsToLower kv2.1 == jsToLower name)).isSome :=
          List.find?_isSome.mpr hex
        obtain ⟨kv1, hF⟩ := Option.isSome_iff_exists.mp hsome
        have h1mem := List.mem_of_find?_eq_some hF
        have h1p := List.find?_some hF
        have hkv : kv1 = kv :=
          huniq kv1 h1mem (by simpa [beq_iff_eq] using h1p)
        simp [getResponseHeader, hLT, hF, hkv]
  · intro hs name hnone
    cases hLT : lookupTruthy hs name with
    | some v =>
        obtain ⟨kv0, h0mem, h0name, _⟩ := lookupTruthy_some_mem hLT
        exact absurd (by rw [h0name]) (hnone kv0 h0mem)
    | none =>
        have hF : hs.find? (fun kv => jsToLower kv.1 == jsToLower name)
            = none := by
          rw [List.find?_eq_none]
          intro kv hmem
          simp [hnone kv hmem]
        simp [getResponseHeader, hLT, hF]

/-- Witness for `header_introspection`: a one-entry map with key
`Content-Type`, looked up via `content-type`, plus a miss that yields the
sentinel. -/
theorem header_introspection_witness :
    buildHeadersString (some [("Content-Type", "application/json")]) =
      headerListing [("Content-Type", "application/json")] ∧
    getResponseHeader (some [("Content-Type", "application/json")])
      "content-type" = some "application/json" ∧
    getResponseHeader (some [("Content-Type", "application/json")])
      "X-Missing" = none := by
  refine ⟨?_, ?_, ?_⟩
  · exact header_introspection.1 [("Content-Type", "application/json")]
  · exact header_introspection.2.2.1 [("Content-Type", "application/json")]
      "content-type" ("Content-Type", "application/json") (by simp)
      (by decide)
      (by intro kv2 h2 _; simpa using h2)
  · exact header_introspection.2.2.2 [("Content-Type", "application/json")]
      "X-Missing" (by decide)

/-! ## The mocked XHR lifecycle (`injected.js:240-282`)

`simulateMockedXHR` drives the readyState machine with nested
`setTimeout(…, 5)` calls: at 5ms, 10ms, 15ms and 20ms after `send` it
redefines `readyState` to 1, 2, 3, 4 in turn and invokes
`onreadystatechange` when one is registered; after setting 4 it invokes
`onload` then `onloadend` (when registered) and then dispatches `load` and
`loadend` events inside a `try`/`catch` that swallows dispatch failures.
We model the observable trace as a list of timestamped events; whether the
host runtime makes `dispatchEvent` throw is a pair of failure flags. -/

/-- An observable event of the mocked lifecycle. -/
inductive XhrEvent where
  | setRS (n : Nat)
  | rscCall (n : Nat)
  | onloadCall
  | onloadendCall
  | dispatch (name : String)
deriving DecidableEq, Repr

/-- Which handlers caller code has registered on the instance. -/
structure XhrHandlers where
  hasRSC : Bool
  hasOnload : Bool
  hasOnloadend : Bool
deriving DecidableEq, Repr

/-- One readyState transition (`injected.js:243-244` and analogues):
redefine `readyState`, then invoke `onreadystatechange` if registered. -/
def transitionEvents (h : XhrHandlers) (n : Nat) : List XhrEvent :=
  XhrEvent.setRS n :: (if h.hasRSC then [XhrEvent.rscCall n] else [])

/-- The body of the `try` block at `injected.js:272-277`: dispatch `load`,
then `loadend`; the boolean is whether an exception was raised (after the
events already dispatched). -/
def dispatchAttempt (failLoad failLoadEnd : Bool) : List XhrEvent × Bool :=
  if failLoad then ([], true)
  else if failLoadEnd then ([XhrEvent.dispatch "load"], true)
  else ([XhrEvent.dispatch "load", XhrEvent.dispatch "loadend"], false)

/-- The `try`/`catch` around the dispatches: the events that happened are
kept, the exception (if any) is swallowed. -/
def dispatchBlock (failLoad failLoadEnd : Bool) : List XhrEvent :=
  (dispatchAttempt failLoad failLoadEnd).1

/-- The DONE step (`injected.js:256-278`): transition to 4, invoke
`onload` then `onloadend` if registered, then the guarded dispatches. -/
def doneEvents (h : XhrHandlers) (failLoad failLoadEnd : Bool) :
    List XhrEvent :=
  transitionEvents h 4
    ++ (if h.hasOnload then [XhrEvent.onloadCall] else [])
    ++ (if h.hasOnloadend then [XhrEvent.onloadendCall] else [])
    ++ dispatchBlock failLoad failLoadEnd

/-- The full timestamped trace of `simulateMockedXHR`
(`injected.js:240-282`): nested `setTimeout(…, 5)` places the transitions
at 5, 10, 15 and 20 milliseconds after `send`. -/
def simulateMockedXHR (h : XhrHandlers) (failLoad failLoadEnd : Bool) :
    List (Nat × XhrEvent) :=
  (transitionEvents h 1).map (fun e => (5, e))
    ++ (transitionEvents h 2).map (fun e => (10, e))
    ++ (transitionEvents h 3).map (fun e => (15, e))
    ++ (doneEvents h failLoad failLoadEnd).map (fun e => (20, e))

/-- The readyState values caller code observes through
`onreadystatechange`. -/
def observedReadyStates (trace : List (Nat × XhrEvent)) : List Nat :=
  trace.filterMap (fun te =>
    match te.2 with
    | XhrEvent.rscCall n => some n
    | _ => none)

/-- The timestamped readyState installations. -/
def readyStateTimes (trace : List (Nat × XhrEvent)) : List (Nat × Nat) :=
  trace.filterMap (fun te =>
    match te.2 with
    | XhrEvent.setRS n => some (te.1, n)
    | _ => none)

/-- The trace without the dispatch events. -/
def nonDispatchTrace (trace : List (Nat × XhrEvent)) :
    List (Nat × XhrEvent) :=
  trace.filter (fun te =>
    match te.2 with
    | XhrEvent.dispatch _ => false
    | _ => true)

/-- **C5.** The mocked XHR lifecycle: (1) with an `onreadystatechange`
handler registered, the observed readyState sequence is exactly
`[1, 2, 3, 4]` — no repeats, omissions or reordering — for every handler
combination and every dispatch-failure mode; (2) the four readyState
installations happen at times 5, 10, 15, 20, strictly increasing, so each
transition is separated by a non-zero delay; (3) with all handlers
registered, the DONE step is exactly: set readyState 4, invoke
`onreadystatechange`, invoke `onload`, invoke `onloadend`, then the
dispatches — and when dispatch succeeds the `load` event precedes
`loadend`; (4) a dispatch failure is swallowed: the non-dispatch part of
the trace is identical to the failure-free trace (the simulation always
completes, never propagating the dispatch error). -/
theorem simulateMockedXHR_lifecycle :
    (∀ (h : XhrHandlers) (fl fle : Bool),
      h.hasRSC = true →
      observedReadyStates (simulateMockedXHR h fl fle) = [1, 2, 3, 4]) ∧
    (∀ (h : XhrHandlers) (fl fle : Bool),
      readyStateTimes (simulateMockedXHR h fl fle) =
        [(5, 1), (10, 2), (15, 3), (20, 4)] ∧
      List.Chain' (fun a b : Nat × Nat => a.1 < b.1)
        (readyStateTimes (simulateMockedXHR h fl fle))) ∧
    (∀ (fl fle : Bool),
      doneEvents { hasRSC := true, hasOnload := true, hasOnloadend := true }
          fl fle =
        [XhrEvent.setRS 4, XhrEvent.rscCall 4, XhrEvent.onloadCall,
         XhrEvent.onloadendCall] ++ dispatchBlock fl fle ∧
      dispatchBlock false false =
        [XhrEvent.dispatch "load", XhrEvent.dispatch "loadend"]) ∧
    (∀ (h : XhrHandlers) (fl fle : Bool),
      nonDispatchTrace (simulateMockedXHR h fl fle) =
        nonDispatchTrace (simulateMockedXHR h false false)) := by
  refine ⟨?_, ?_, ?_, ?_⟩
  · rintro ⟨hr, hl, hle⟩ fl fle hrsc
    cases hrsc
    cases hl <;> cases hle <;> cases fl <;> cases fle <;> rfl
  · rintro ⟨hr, hl, hle⟩ fl fle
    cases hr <;> cases hl <;> cases hle <;> cases fl <;> cases fle <;>
      exact ⟨rfl, by
        show List.Chain' (fun a b : Nat × Nat => a.1 < b.1)
          [(5, 1), (10, 2), (15, 3), (20, 4)]
        norm_num [List.chain'_cons]⟩
  · intro fl fle
    cases fl <;> cases fle <;> exact ⟨rfl, rfl⟩
  · rintro ⟨hr, hl, hle⟩ fl fle
    cases hr <;> cases hl <;> cases hle <;> cases fl <;> cases fle <;> rfl

/-- Witness for `simulateMockedXHR_lifecycle`: the fully-registered
instance under a `loadend`-dispatch failure still observes `[1,2,3,4]`,
ordered installations, the DONE ordering, and an unchanged non-dispatch
trace. -/
theorem simulateMockedXHR_lifecycle_witness :
    observedReadyStates (simulateMockedXHR
      { hasRSC := true, hasOnload := true, hasOnloadend := true }
      false true) = [1, 2, 3, 4] ∧
    readyStateTimes (simulateMockedXHR
      { hasRSC := true, hasOnload := true, hasOnloadend := true }
      false true) = [(5, 1), (10, 2), (15, 3), (20, 4)] ∧
    doneEvents { hasRSC := true, hasOnload := true, hasOnloadend := true }
        false false =
      [XhrEvent.setRS 4, XhrEvent.rscCall 4, XhrEvent.onloadCall,
       XhrEvent.onloadendCall, XhrEvent.dispatch "load",
       XhrEvent.dispatch "loadend"] ∧
    nonDispatchTrace (simulateMockedXHR
      { hasRSC := true, hasOnload := true, hasOnloadend := true }
      false true) =
      nonDispatchTrace (simulateMockedXHR
        { hasRSC := true, hasOnload := true, hasOnloadend := true }
        false false) := by
  refine ⟨?_, ?_, ?_, ?_⟩
  · exact simulateMockedXHR_lifecycle.1
      { hasRSC := true, hasOnload := true, hasOnloadend := true }
      false true rfl
  · exact (simulateMockedXHR_lifecycle.2.1
      { hasRSC := true, hasOnload := true, hasOnloadend := true }
      false true).1
  · have h := (simulateMockedXHR_lifecycle.2.2.1 false false).1
    simpa using h
  · exact simulateMockedXHR_lifecycle.2.2.2
      { hasRSC := true, hasOnload := true, hasOnloadend := true }
      false true

/-! ## Read-only override properties (`injected.js:197-210`)

`defineReadOnly` installs, via `Object.defineProperty`, an accessor
property with only a getter returning the captured value (and no setter).
We model the instance's own properties as an ordered association list of
property definitions, reads as first-match lookup, and assignment with the
default (non-strict-mode) JS `[[Set]]` semantics the spec assumes:
assigning through an accessor property that has no setter is a silent
no-op and raises no exception. -/

/-- A JS value stored in an overridden property. -/
inductive JsVal where
  | num (n : Nat)
  | str (s : String)
deriving DecidableEq, Repr

/-- A property definition on the instance: an accessor installed by
`defineReadOnly` (getter only, returning a fixed value), or an ordinary
writable data property. -/
inductive PropDef where
  | getterConst (v : JsVal)
  | dataProp (v : JsVal)
deriving DecidableEq, Repr

/-- The instance's own properties, newest definition first
(`Object.defineProperty` replaces any previous definition, which
first-match lookup reflects). -/
abbrev JsObj := List (String × PropDef)

/-- `defineReadOnly(obj, prop, value)` (`injected.js:198-203`): define
`prop` as a getter-only accessor returning `value`. -/
def defineReadOnly (obj : JsObj) (prop : String) (v : JsVal) : JsObj :=
  (prop, PropDef.getterConst v) :: obj

/-- Property read: the getter's fixed value for an accessor, the stored
value for a data property. -/
def readProp (obj : JsObj) (name : String) : Option JsVal :=
  match obj.find? (fun kv => kv.1 == name) with
  | some kv =>
      match kv.2 with
      | PropDef.getterConst v => some v
      | PropDef.dataProp v => some v
  | none => none

/-- Non-strict-mode JS assignment: through a getter-only accessor it is a
silent no-op; a data property is updated; an absent name creates a data
property.  The second component is the raised exception — always `none`
in sloppy mode. -/
def assignProp (obj : JsObj) (name : String) (v : JsVal) :
    JsObj × Option String :=
  match obj.find? (fun kv => kv.1 == name) with
  | some kv =>
      match kv.2 with
      | PropDef.getterConst _ => (obj, none)
      | PropDef.dataProp _ => ((name, PropDef.dataProp v) :: obj, none)
  | none => ((name, PropDef.dataProp v) :: obj, none)

/-- The response properties `simulateMockedXHR` fixes on the instance
(`injected.js:206-210`), plus `readyState` as redefined at DONE
(`injected.js:258`). -/
def mockDoneProps (p : MockResponsePayload) : JsObj :=
  defineReadOnly
    (defineReadOnly
      (defineReadOnly
        (defineReadOnly
          (defineReadOnly
            (defineReadOnly [] "status" (.num (jsOrNat p.status 200)))
            "statusText" (.str (jsOrString p.statusText "OK")))
          "response" (.str (p.body.getD "")))
        "responseText" (.str (p.body.getD "")))
      "responseURL" (.str ""))
    "readyState" (.num 4)

/-- The six overridden property names. -/
def overriddenProps : List String :=
  ["status", "statusText", "response", "responseText", "responseURL",
   "readyState"]

/-- **C9.** Every property the emulator overrides on a mocked instance is
read-only from the caller's perspective: for each overridden name, a read
yields a value, an assignment raises no exception and leaves the object
unchanged, and a read after the assignment still returns the emulator's
fixed value. -/
theorem overridden_props_readonly (p : MockResponsePayload)
    (name : String) (v : JsVal) (hmem : name ∈ overriddenProps) :
    (readProp (mockDoneProps p) name).isSome ∧
    (assignProp (mockDoneProps p) name v).2 = none ∧
    (assignProp (mockDoneProps p) name v).1 = mockDoneProps p ∧
    readProp (assignProp (mockDoneProps p) name v).1 name =
      readProp (mockDoneProps p) name := by
  simp only [overriddenProps, List.mem_cons, List.mem_singleton,
    List.not_mem_nil, or_false] at hmem
  rcases hmem with rfl | rfl | rfl | rfl | rfl | rfl <;>
    exact ⟨rfl, rfl, rfl, rfl⟩

/-- Witness for `overridden_props_readonly`: reassigning `status` on a
concrete payload is a swallowed no-op and the read still returns the fixed
value 503. -/
theorem overridden_props_readonly_witness :
    "status" ∈ overriddenProps ∧
    (readProp (mockDoneProps
      { status := some 503, statusText := some "Service Unavailable",
        headers := none, body := some "oops" }) "status").isSome ∧
    (assignProp (mockDoneProps
      { status := some 503, statusText := some "Service Unavailable",
        headers := none, body := some "oops" }) "status"
      (.num 200)).2 = none ∧
    readProp (assignProp (mockDoneProps
      { status := some 503, statusText := some "Service Unavailable",
        headers := none, body := some "oops" }) "status"
      (.num 200)).1 "status" = some (.num 503) := by
  have h := overridden_props_readonly
    { status := some 503, statusText := some "Service Unavailable",
      headers := none, body := some "oops" }
    "status" (.num 200) (by decide)
  exact ⟨by decide, h.1, h.2.1, by rw [h.2.2.2]; decide⟩

end MockApi
